import Mathlib

/-
Verification development for the thnk-backend research-source pipeline.

The JavaScript sources embedded here are:
  src/services/aiServices.js   (the current version of the module)
  src/services/scrapper.js     (the current version of the module)

External collaborators (the generative backend, axios HTTP fetches, the WHATWG
URL parser, cheerio extraction, JSON.parse) are modelled as oracle fields of an
environment record: the repository code is embedded as total Lean functions
over those oracles, with JavaScript exceptions represented by Except and every
try/catch of the source mirrored by an explicit handler.  Numbers are modelled
as rationals; JavaScript truthiness of 0, "" and undefined is modelled
explicitly where the code relies on it (the various jsOr helpers below).
-/

namespace Thnk

/-! ## JavaScript-style string helpers (List Char level) -/

/-- Does the pattern occur at the head of the list?  Mirrors a regex match
anchored at the current scan position. -/
def lcStartsWith : List Char → List Char → Bool
  | [], _ => true
  | _ :: _, [] => false
  | p :: ps, c :: cs => p == c && lcStartsWith ps cs

/-- Does the pattern occur anywhere in the list (JS String.prototype.includes)? -/
def lcContains (pat : List Char) : List Char → Bool
  | [] => lcStartsWith pat []
  | c :: cs => lcStartsWith pat (c :: cs) || lcContains pat cs

def strContains (s pat : String) : Bool := lcContains pat.data s.data

def strStarts (s pat : String) : Bool := lcStartsWith pat.data s.data

def strEnds (s pat : String) : Bool := lcStartsWith pat.data.reverse s.data.reverse

/-- JS s.substring(a, b) for 0 ≤ a ≤ b (clamped at the string end). -/
def jsSubstring (s : String) (a b : Nat) : String :=
  String.mk ((s.data.drop a).take (b - a))

/-- JS String.prototype.trim (whitespace at both ends). -/
def jsTrimS (s : String) : String :=
  String.mk (((s.data.dropWhile Char.isWhitespace).reverse.dropWhile Char.isWhitespace).reverse)

def strLower (s : String) : String := String.mk (s.data.map Char.toLower)

/-- JS a || b for strings (empty string is falsy). -/
def jsOrStr (a b : String) : String := if a = "" then b else a

/-- JS (x || d) where x is a possibly-absent string property: undefined and ""
are falsy. -/
def jsStrOpt (v : Option String) (d : String) : String :=
  match v with
  | none => d
  | some s => if s = "" then d else s

/-- JS (x || 0.5) where x is a possibly-absent numeric property: undefined and
0 are falsy, so a measured 0 also resolves to 0.5. -/
def jsOrHalf (v : Option ℚ) : ℚ :=
  match v with
  | none => 1/2
  | some x => if x = 0 then 1/2 else x

/-- JS (x || 0.5) on a numeric value that is always present. -/
def jsOrQv (x : ℚ) : ℚ := if x = 0 then 1/2 else x

/-- The JS try/catch around a block whose handler returns normally: an
exception raised by the body is caught and converted into the handler's
value. -/
def tryCatchE {ε α : Type} (body : Except ε α) (handler : ε → α) : Except ε α :=
  match body with
  | .ok a => .ok a
  | .error e => .ok (handler e)

/-! ## URL Canonicalizer — cleanUrl (aiServices.js lines 52-68)

cleanUrl chains four RegExp replaces:
  .replace(/([?&])fbclid=[^&]*(&|$)/, "$1")      (first match only)
  .replace(/([?&])utm_[^&]*(&|$)/g, "$1")        (global, non-overlapping)
  .replace(/&$/, "")
  .replace(/\?$/, "")
The greedy [^&]* consumes the run of non-ampersand characters and (&|$)
consumes the following ampersand when there is one; a global replace resumes
scanning after the consumed match, so replacement text is never rescanned. -/

/-- Consume the regex tail [^&]*(&|$): drop characters up to and including the
next ampersand, or the whole list when no ampersand remains. -/
def lcDropParam : List Char → List Char
  | [] => []
  | c :: cs => if c == '&' then cs else lcDropParam cs

/-- One (non-global) pass of .replace of ([?&])fbclid=[^&]*(&|$) with the
captured separator. -/
def lcFbclidOnce : List Char → List Char
  | [] => []
  | c :: cs =>
    if (c == '?' || c == '&') && lcStartsWith "fbclid=".data cs then
      c :: lcDropParam (cs.drop 7)
    else
      c :: lcFbclidOnce cs

/-- The global pass of .replace of ([?&])utm_[^&]*(&|$) with the captured
separator: scanning resumes after each consumed match.  The recursion is
driven by a fuel counter (every step consumes at least one character, so
fuel equal to the list length is always sufficient); this keeps the
function structurally recursive and hence evaluable by the kernel. -/
def lcUtmGo : Nat → List Char → List Char
  | _, [] => []
  | 0, l => l
  | n + 1, c :: cs =>
    if (c == '?' || c == '&') && lcStartsWith "utm_".data cs then
      c :: lcUtmGo n (lcDropParam (cs.drop 4))
    else
      c :: lcUtmGo n cs

def lcUtmAll (l : List Char) : List Char := lcUtmGo l.length l

/-- JS .replace of a single anchored trailing character (/&$/ or /\?$/). -/
def lcDropLastIf (ch : Char) (l : List Char) : List Char :=
  match l.reverse with
  | [] => l
  | c :: rest => if c == ch then rest.reverse else l

/-- cleanUrl (aiServices.js lines 52-68), on the string path.  The null path
(input not a string) is outside this model; with a string input none of the
replace calls can throw, so the surrounding try/catch is inert. -/
def cleanUrl (s : String) : String :=
  String.mk (lcDropLastIf '?' (lcDropLastIf '&' (lcUtmAll (lcFbclidOnce s.data))))

/-! ## Credibility Scorer — calculateCredibilityScore (aiServices.js lines 452-482) -/

def trustedNewsList : List String := ["reuters", "apnews", "bbc", "npr", "pbs"]

/-- The declared-type table (aiServices.js lines 467-475).  All values are
truthy, so the JS presence check coincides with lookup success. -/
def typeScoresLookup (t : String) : Option ℚ :=
  if t = "academic" then some (9/10)
  else if t = "government" then some (17/20)
  else if t = "scientific_journal" then some (9/10)
  else if t = "established_news" then some (4/5)
  else if t = "news" then some (7/10)
  else if t = "organization" then some (7/10)
  else if t = "general" then some (1/2)
  else none

/-- The mutable `score` of calculateCredibilityScore after the domain block
(aiServices.js lines 453-465): base 0.5 reassigned by the containment chain.
The branches test substring containment (String.prototype.includes), in
order; a missing (or empty, hence falsy — the containment tests all fail on
"") domain leaves the base score 0.5. -/
def domainScoreOfCode (domain : Option String) : ℚ :=
  match domain with
  | none => 1/2
  | some d =>
    let dl := strLower d
    if strContains dl ".edu" then 9/10
    else if strContains dl ".gov" then 17/20
    else if strContains dl ".org" then 7/10
    else if strContains dl ".com" then
      if trustedNewsList.any (fun n => strContains dl n) then 4/5 else 3/5
    else 1/2

/-- calculateCredibilityScore (aiServices.js lines 452-482): the domain block
is domainScoreOfCode above, then the declared type raises the score via max
when the type is present in the table, and the result is clamped. -/
def calculateCredibilityScore (domain : Option String) (sourceType : Option String) : ℚ :=
  let score1 : ℚ := domainScoreOfCode domain
  let score2 : ℚ :=
    match sourceType with
    | none => score1
    | some t =>
      match typeScoresLookup t with
      | some v => max score1 v
      | none => score1
  max (1/10) (min 1 score2)

/-- The type-score component with 0.5 substituted for a missing or unknown
declared type (equivalent to the code's conditional max because every domain
score is at least 0.5). -/
def typeScoreOfCode (sourceType : Option String) : ℚ :=
  match sourceType with
  | none => 1/2
  | some t => (typeScoresLookup t).getD (1/2)

/-- Spec reading of §4.5 (refinement comparison only): the domain table read
as a suffix table — the score is keyed on how the domain ends, .com being
upgraded to 0.8 exactly when the domain contains an allowlisted news name. -/
def specDomainSuffixScore (domain : String) : ℚ :=
  let dl := strLower domain
  if strEnds dl ".edu" then 9/10
  else if strEnds dl ".gov" then 17/20
  else if strEnds dl ".org" then 7/10
  else if strEnds dl ".com" then
    if trustedNewsList.any (fun n => strContains dl n) then 4/5 else 3/5
  else 1/2

/-! ## Content Analyzer — callAI and its three consumers

callAI (aiServices.js lines 6-45) awaits the generative backend, guards the
response text for presence, size (100,000 characters) and JSON delimiters,
and JSON-parses it; every failure mode resolves to the caller's fallback
value.  The backend call is an oracle returning Except (the await can
reject) of Option String (the response text can be missing); JSON.parse is
an oracle from the response text to the call's typed result (none = parse
error; a successful parse of JSON with the wrong shape is a some with
absent fields). -/

/-- Outcome of one ai.models.generateContent await: a rejection, or a
response whose text is absent or present. -/
abbrev AICallOutcome := Except String (Option String)

/-- The JSON-delimiter guard of callAI: the trimmed text must start and end
with braces or with brackets before a parse is attempted. -/
def jsonDelimited (t : String) : Bool :=
  (strStarts t "\x7b" && strEnds t "\x7d") || (strStarts t "[" && strEnds t "]")

/-- callAI (aiServices.js lines 6-45). -/
def callAI {α : Type} (parse : String → Option α) (outcome : AICallOutcome) (fallback : α) : α :=
  match outcome with
  | .error _ => fallback
  | .ok none => fallback
  | .ok (some text) =>
    if 100000 < text.length then fallback
    else if jsonDelimited (jsTrimS text) then (parse text).getD fallback
    else fallback

/-- Does this backend outcome make callAI return its fallback value? -/
def callAIFallsBack {α : Type} (parse : String → Option α) (outcome : AICallOutcome) : Bool :=
  match outcome with
  | .error _ => true
  | .ok none => true
  | .ok (some text) =>
    if 100000 < text.length then true
    else if jsonDelimited (jsTrimS text) then (parse text).isNone
    else true

/-- The parsed JSON of the neutrality/sentiment call: either field can be
absent when the backend returned JSON of a different shape. -/
structure AnalysisJson where
  neutralityScore : Option ℚ
  sentimentScore : Option ℚ
deriving DecidableEq

/-- The parsed JSON of the tags call: a string array, or JSON of some other
shape (the consumers re-check with Array.isArray). -/
inductive TagsJson where
  | arr (tags : List String)
  | other
deriving DecidableEq

def tagsToList : TagsJson → List String
  | .arr ts => ts
  | .other => []

/-- The parsed JSON of the source-candidate extraction call may carry a
sources property that is absent/null, a proper array, or some other truthy
non-iterable value (JSON.parse enforces no schema). -/
structure Candidate where
  url : String
  title : Option String
  contentSnippet : Option String
  domain : Option String
  sourceType : Option String
  credibilityScore : Option ℚ
  confidence : Option ℚ
  tags : List String
deriving DecidableEq

inductive ExtractSources where
  | missing
  | nonIterable
  | arr (l : List Candidate)
deriving DecidableEq

structure ExtractJson where
  overallNeutrality : Option ℚ
  overallPersuasion : Option ℚ
  sources : ExtractSources
deriving DecidableEq

/-- The parsed JSON of the bias-insight call (biasIndicators flattened). -/
structure BiasJson where
  overallAssessment : String
  keyFindings : List String
  criticalThinkingQuestions : List String
  researchSuggestions : List String
  confidenceLevel : String
  languagePatterns : List String
  perspectiveGaps : List String
  sourceDiversity : String
deriving DecidableEq

/-- What scrapeWebsite resolves to when it does not throw: null, or an object
whose title and text fields the enricher reads ("" models a falsy text). -/
structure ScrapedData where
  title : String
  text : String
deriving DecidableEq

/-- A validated source record as pushed by the enricher.  Option fields model
properties that are present on some construction paths only. -/
structure VRecord where
  url : String
  title : Option String
  text : Option String
  contentSnippet : Option String
  tags : List String
  neutralityScore : ℚ
  sentimentScore : ℚ
  domain : Option String
  sourceType : Option String
  credibilityScore : ℚ
  aiGenerated : Option Bool
  verified : Bool
  contentSource : Option String
  predefined : Bool
  scrapedSuccessfully : Bool
  error : Option String
deriving DecidableEq

/-- The oracle environment: one field per external capability the module
awaits.  Backend calls return Except because an await can reject; scrape
models the observable outcomes of the imported scrapeWebsite (null, data,
or a thrown error — see scrapeWebsiteJs below); validUrl models the WHATWG
check of isValidUrl (new URL + http/https protocol, aiServices.js lines
71-78); domainOf models extractDomain (new URL(...).hostname without the
leading www., aiServices.js lines 81-88). -/
structure Env where
  initialResp : String → AICallOutcome
  extractResp : String → AICallOutcome
  parseExtract : String → Option ExtractJson
  analysisResp : String → AICallOutcome
  parseAnalysis : String → Option AnalysisJson
  tagsResp : String → AICallOutcome
  parseTags : String → Option TagsJson
  summaryResp : String → AICallOutcome
  biasResp : List VRecord → String → AICallOutcome
  parseBias : String → Option BiasJson
  scrape : String → Except String (Option ScrapedData)
  validUrl : String → Bool
  domainOf : String → Option String

/-- The prompt string of getNeutralityAndSentiment (aiServices.js 188-216). -/
def analysisPromptOf (text : String) : String :=
  "Analyze this text for neutrality (0=biased, 1=neutral) and sentiment (0=negative, 1=positive): "
    ++ jsSubstring text 0 3000

/-- getNeutralityAndSentiment (aiServices.js lines 188-216): callAI with the
fixed fallback object with both scores 0.5. -/
def getNeutralityAndSentimentR (env : Env) (text : String) : AnalysisJson :=
  callAI env.parseAnalysis (env.analysisResp (analysisPromptOf text))
    { neutralityScore := some (1/2), sentimentScore := some (1/2) }

/-- The prompt string of getTagsFromAI (aiServices.js 218-239). -/
def tagsPromptOf (text : String) : String :=
  "Extract relevant tags from: " ++ jsSubstring text 0 2000

/-- getTagsFromAI (aiServices.js lines 218-239): callAI with the empty array
as fallback. -/
def getTagsFromAIR (env : Env) (text : String) : TagsJson :=
  callAI env.parseTags (env.tagsResp (tagsPromptOf text)) (.arr [])

/-- The prompt string of getGenSummary (aiServices.js 241-261). -/
def summaryPromptOf (text : String) : String :=
  "Provide a concise summary of the following text. Return ONLY the summary text, no JSON formatting:\n\n"
    ++ jsSubstring text 0 6000

/-- getGenSummary (aiServices.js lines 241-261).  Unlike the analysis and
tags calls this one does NOT go through callAI: it awaits the backend
directly, has no size or JSON-delimiter guard, returns any non-empty
response text verbatim, and falls back to a 200-character truncation of the
input when the response text is missing/empty or the await rejects (its own
try/catch). -/
def getGenSummaryR (env : Env) (text : String) : String :=
  match env.summaryResp (summaryPromptOf text) with
  | .error _ => jsSubstring text 0 200 ++ "..."
  | .ok none => jsSubstring text 0 200 ++ "..."
  | .ok (some s) => if s = "" then jsSubstring text 0 200 ++ "..." else s

/-! ## Source Enricher — validateAndEnrichSourcesWithScraping
(aiServices.js lines 91-185) -/

/-- contentToAnalyze of the degraded path (aiServices.js lines 143-144):
source.contentSnippet || source.title || "No content available". -/
def contentToAnalyze (source : Candidate) : String :=
  jsStrOpt source.contentSnippet (jsStrOpt source.title "No content available")

/-- The record pushed on a successful scrape (aiServices.js lines 119-137).
This is a freshly built object (no spread of the candidate). -/
def scrapeSuccessRecord (env : Env) (source : Candidate) (cleaned : String)
    (d : ScrapedData) : VRecord :=
  let analysis := getNeutralityAndSentimentR env (jsSubstring d.text 0 3000)
  let tags := getTagsFromAIR env (jsSubstring d.text 0 3000)
  { url := cleaned
  , title := some (jsOrStr d.title (jsStrOpt source.title "No title available"))
  , text := some (jsSubstring d.text 0 2000 ++ "...")
  , contentSnippet := none
  , tags := tagsToList tags
  , neutralityScore := jsOrHalf analysis.neutralityScore
  , sentimentScore := jsOrHalf analysis.sentimentScore
  , domain := env.domainOf cleaned
  , sourceType := some (jsStrOpt source.sourceType "general")
  , credibilityScore := calculateCredibilityScore (env.domainOf cleaned) source.sourceType
  , aiGenerated := some false
  , verified := true
  , contentSource := some "direct_scraping"
  , predefined := false
  , scrapedSuccessfully := true
  , error := none }

/-- The record pushed when scraping fails (aiServices.js lines 148-166): the
candidate is spread and then overridden; the credibility score is the
candidate's own credibilityScore property (0.5 when absent or 0) lowered by
0.3 with floor 0.2 — calculateCredibilityScore is not called on this path. -/
def scrapeFailRecord (env : Env) (source : Candidate) (cleaned : String) : VRecord :=
  let analysis := getNeutralityAndSentimentR env (contentToAnalyze source)
  let tags := getTagsFromAIR env (contentToAnalyze source)
  { url := cleaned
  , title := some (jsStrOpt source.title "No title available")
  , text := some (jsStrOpt source.contentSnippet "Content not available through scraping")
  , contentSnippet := source.contentSnippet
  , tags := tagsToList tags
  , neutralityScore := jsOrHalf analysis.neutralityScore
  , sentimentScore := jsOrHalf analysis.sentimentScore
  , domain := env.domainOf cleaned
  , sourceType := some (jsStrOpt source.sourceType "general")
  , credibilityScore := max (1/5) (jsOrHalf source.credibilityScore - 3/10)
  , aiGenerated := none
  , verified := false
  , contentSource := none
  , predefined := false
  , scrapedSuccessfully := false
  , error := none }

/-- The record pushed by the per-candidate catch (aiServices.js lines
168-181): the candidate is spread (original url, no cleaned form) and the
fixed degraded scores are attached. -/
def catchRecord (source : Candidate) (e : String) : VRecord :=
  { url := source.url
  , title := source.title
  , text := none
  , contentSnippet := source.contentSnippet
  , tags := []
  , neutralityScore := 1/2
  , sentimentScore := 1/2
  , domain := source.domain
  , sourceType := source.sourceType
  , credibilityScore := 1/5
  , aiGenerated := none
  , verified := false
  , contentSource := none
  , predefined := false
  , scrapedSuccessfully := false
  , error := some e }

/-- One iteration of the enrichment loop (aiServices.js lines 96-182): clean
the URL, drop the candidate when the cleaned URL is falsy or fails format
validation, otherwise scrape; a scrape that throws is handled by the
per-candidate catch.  cleanUrl and isValidUrl cannot throw (both swallow
their own errors), so the try effectively guards the scrape onward. -/
def processCandidate (env : Env) (source : Candidate) : Option VRecord :=
  let cleaned := cleanUrl source.url
  if cleaned = "" then none
  else if env.validUrl cleaned = false then none
  else
    match env.scrape cleaned with
    | .error e => some (catchRecord source e)
    | .ok none => some (scrapeFailRecord env source cleaned)
    | .ok (some d) =>
      if d.text = "" then some (scrapeFailRecord env source cleaned)
      else some (scrapeSuccessRecord env source cleaned d)

/-- The for-of loop of validateAndEnrichSourcesWithScraping: records are
pushed in order and a skipped candidate leaves no trace. -/
def enrichLoop (env : Env) : List Candidate → List VRecord
  | [] => []
  | s :: rest =>
    match processCandidate env s with
    | none => enrichLoop env rest
    | some r => r :: enrichLoop env rest

/-- validateAndEnrichSourcesWithScraping (aiServices.js lines 91-185) over
the three shapes the untyped sources argument can take: absent/null gives
[], an array runs the loop, and a truthy non-iterable value makes the for-of
header itself throw TypeError — outside the per-candidate try, so the
exception escapes this function. -/
def validateAndEnrichSourcesWithScraping (env : Env) :
    ExtractSources → Except String (List VRecord)
  | .missing => .ok []
  | .nonIterable => .error "TypeError: sources is not iterable"
  | .arr l => .ok (enrichLoop env l)

/-! ## Source Candidate Extractor — getActualSourcesUsed
(aiServices.js lines 385-449) -/

/-- The prompt string of getActualSourcesUsed (aiServices.js 407-417). -/
def extractPromptOf (prompt : String) : String :=
  "\nProvide 2-3 REAL, VERIFIABLE sources that would contain accurate information about: \""
    ++ prompt
    ++ "\"\n\nCRITICAL REQUIREMENTS:\n- Return ONLY clean, simple URLs without tracking parameters\n- Only include well-known, authoritative domains like .gov, .edu, .org\n- Do NOT include any Facebook tracking parameters\n- If you cannot provide a clean, verifiable URL, do not include the source\n\nReturn as JSON with the exact schema provided.\n"

/-- The per-candidate transform of the post-processing map (aiServices.js
lines 439-444): the url is replaced by its cleaned form unless that is
falsy, and tags is initialised to the empty array. -/
def transformCandidate (s : Candidate) : Candidate :=
  { s with url := jsOrStr (cleanUrl s.url) s.url, tags := [] }

/-- The filter of the post-processing (aiServices.js line 445): keep
candidates with a truthy url. -/
def keepCandidate (s : Candidate) : Bool := !(s.url == "")

/-- The post-processing of getActualSourcesUsed (aiServices.js lines
437-446): applied only when sources is a true array. -/
def postProcessExtract (r : ExtractJson) : ExtractJson :=
  match r.sources with
  | .arr l => { r with sources := .arr ((l.map transformCandidate).filter keepCandidate) }
  | _ => r

/-- getActualSourcesUsed (aiServices.js lines 385-449): callAI with the
fallback {overallNeutrality: 0.5, overallPersuasion: 0.5, sources: []},
then URL post-processing.  No confidence property is requested from the
backend and none is consulted. -/
def getActualSourcesUsedR (env : Env) (prompt : String) : ExtractJson :=
  postProcessExtract
    (callAI env.parseExtract (env.extractResp (extractPromptOf prompt))
      { overallNeutrality := some (1/2), overallPersuasion := some (1/2), sources := .arr [] })

/-! ## Fallback Source Provider — generatePredefinedSources
(aiServices.js lines 263-324) -/

def reliableDomainsHealth : List String :=
  [ "https://www.cdc.gov/", "https://www.nih.gov/", "https://www.who.int/"
  , "https://www.mayoclinic.org/", "https://www.health.harvard.edu/" ]

def reliableDomainsNutrition : List String :=
  [ "https://www.nutrition.gov/", "https://www.hsph.harvard.edu/nutritionsource/"
  , "https://www.eatright.org/" ]

def reliableDomainsGeneral : List String :=
  [ "https://www.wikipedia.org/", "https://www.britannica.com/"
  , "https://www.sciencedaily.com/" ]

/-- The keyword bucketing of generatePredefinedSources (aiServices.js lines
286-301). -/
def categoryOf (prompt : String) : String :=
  let lp := strLower prompt
  if strContains lp "health" || strContains lp "medical" || strContains lp "disease" then
    "health"
  else if strContains lp "nutrition" || strContains lp "diet" || strContains lp "food" then
    "nutrition"
  else
    "general"

def domainsFor (category : String) : List String :=
  if category = "health" then reliableDomainsHealth
  else if category = "nutrition" then reliableDomainsNutrition
  else reliableDomainsGeneral

/-- generatePredefinedSources (aiServices.js lines 285-324): a pure mapping
of the first three bucket domains into records tagged verified with
credibility 0.8.  No network probe, fetch or any other oracle call is made
for these URLs. -/
def generatePredefinedSourcesR (env : Env) (prompt : String) : List VRecord :=
  let category := categoryOf prompt
  ((domainsFor category).take 3).map (fun domain =>
    { url := domain
    , title := some ("Reliable " ++ category ++ " information source")
    , text := some ("Visit this reputable " ++ category
        ++ " website for verified information about \"" ++ jsSubstring prompt 0 100 ++ "\"")
    , contentSnippet := none
    , tags := [category, "reliable", "verified"]
    , neutralityScore := 7/10
    , sentimentScore := 1/2
    , domain := env.domainOf domain
    , sourceType := some (if category = "health" then "medical" else "general")
    , credibilityScore := 4/5
    , aiGenerated := some false
    , verified := true
    , contentSource := none
    , predefined := true
    , scrapedSuccessfully := false
    , error := none })

/-! ## Pipeline — getReliableSourcesWithFallback and the orchestrator
(aiServices.js lines 327-360, 484-494, 605-653) -/

/-- getInitialAIResponse (aiServices.js lines 363-382): total, with its own
catch and the fixed degraded text. -/
def getInitialAIResponseR (env : Env) (prompt : String) : String :=
  match env.initialResp ("Provide a comprehensive answer to: " ++ prompt) with
  | .error _ => "Unable to generate response"
  | .ok none => "Unable to generate response"
  | .ok (some t) => if t = "" then "Unable to generate response" else t

/-- The result object of getReliableSourcesWithFallback / getFallbackResponse.
usedFallback and fallback are distinct JS properties set by different code
paths; absence is modelled as false. -/
structure ReliableResult where
  summary : String
  neutralityScore : ℚ
  persuasionScore : ℚ
  sources : List VRecord
  usedFallback : Bool
  fallback : Bool
deriving DecidableEq

/-- getFallbackResponse (aiServices.js lines 485-494): a summary of the
prompt itself, neutral 0.5/0.5 scores, no sources, fallback flag true. -/
def getFallbackResponseR (env : Env) (prompt : String) : ReliableResult :=
  { summary := getGenSummaryR env prompt
  , neutralityScore := 1/2
  , persuasionScore := 1/2
  , sources := []
  , usedFallback := false
  , fallback := true }

/-- getReliableSourcesWithFallback (aiServices.js lines 327-360): initial
answer, candidate extraction, enrichment; a non-empty enriched list is
returned directly, an empty one triggers the predefined sources with
usedFallback; any exception inside the try (in this model: the enrichment
TypeError on a non-iterable sources value) is caught and converted to
getFallbackResponse. -/
def getReliableSourcesWithFallbackR (env : Env) (prompt : String) :
    Except String ReliableResult :=
  tryCatchE
    (let initialResponse := getInitialAIResponseR env prompt
     let sourcesAnalysis := getActualSourcesUsedR env prompt
     match validateAndEnrichSourcesWithScraping env sourcesAnalysis.sources with
     | .error e => .error e
     | .ok validatedSources =>
       if validatedSources.length > 0 then
         .ok { summary := initialResponse
             , neutralityScore := jsOrHalf sourcesAnalysis.overallNeutrality
             , persuasionScore := jsOrHalf sourcesAnalysis.overallPersuasion
             , sources := validatedSources
             , usedFallback := false
             , fallback := false }
       else
         .ok { summary := initialResponse
             , neutralityScore := 1/2
             , persuasionScore := 1/2
             , sources := generatePredefinedSourcesR env prompt
             , usedFallback := true
             , fallback := false })
    (fun _ => getFallbackResponseR env prompt)

/-- getSmartResponseWithSources (aiServices.js lines 651-653). -/
def getSmartResponseWithSourcesR (env : Env) (prompt : String) :
    Except String ReliableResult :=
  getReliableSourcesWithFallbackR env prompt

/-- getFallbackBiasAnalysis (aiServices.js lines 587-602). -/
def getFallbackBiasAnalysisR : BiasJson :=
  { overallAssessment := "Analysis unavailable - using default metrics"
  , keyFindings := ["Consider the actual sources used by the AI system"]
  , criticalThinkingQuestions := ["What perspectives might be missing from these sources?"]
  , researchSuggestions := ["Verify claims with primary sources when possible"]
  , confidenceLevel := "medium"
  , languagePatterns := ["Unable to analyze language patterns"]
  , perspectiveGaps := ["Check source diversity manually"]
  , sourceDiversity := "unknown" }

/-- getBiasAnalysisInsights (aiServices.js lines 497-585).  The guard on a
missing or non-array sources value cannot fire here because the orchestrator
always passes a record whose sources is a list.  The rendered analysis
prompt is a pure function of the sources and summary; the oracle receives
the sources and the summary and may reject (then callAI falls back). -/
def getBiasAnalysisInsightsR (env : Env) (resp : ReliableResult) : BiasJson :=
  callAI env.parseBias (env.biasResp resp.sources resp.summary) getFallbackBiasAnalysisR

/-! ## Metrics Aggregator, Quality Assessor, Quick Assessment
(aiServices.js lines 656-839) -/

structure ScoreRange where
  low : ℚ
  high : ℚ
  average : ℚ
deriving DecidableEq

/-- min/max/average of a non-empty score list (Math.min/Math.max over the
spread array plus reduce-average). -/
def rangeOf (l : List ℚ) : ScoreRange :=
  match l with
  | [] => { low := 0, high := 0, average := 0 }
  | x :: xs =>
    { low := xs.foldl min x
    , high := xs.foldl max x
    , average := (l.foldl (fun a b => a + b) 0) / (l.length : ℚ) }

/-- calculateScoreVariance (aiServices.js lines 819-826). -/
def calculateScoreVarianceR (scores : List ℚ) : ℚ :=
  if scores.length < 2 then 0
  else
    let mean := (scores.foldl (fun a b => a + b) 0) / (scores.length : ℚ)
    (scores.foldl (fun acc s => acc + (s - mean) * (s - mean)) 0) / (scores.length : ℚ)

/-- calculateDiversityScore (aiServices.js lines 812-817). -/
def calculateDiversityScoreR (sources : List VRecord) : ℚ :=
  if sources.isEmpty then 0
  else min (calculateScoreVarianceR (sources.map (fun s => jsOrQv s.neutralityScore)) * 5) 1

/-- checkPerspectiveBalance (aiServices.js lines 828-839). -/
def checkPerspectiveBalanceR (ns : List ℚ) : Bool :=
  if ns.length < 3 then false
  else
    let high := (ns.filter (fun s => decide (7/10 < s))).length
    let low := (ns.filter (fun s => decide (s < 2/5))).length
    let moderate := (ns.filter (fun s => decide (2/5 ≤ s) && decide (s ≤ 7/10))).length
    (decide (0 < high) && decide (0 < low))
      || decide ((ns.length : ℚ) / 2 ≤ (moderate : ℚ))

/-- countSourceTypes (aiServices.js lines 696-703): an insertion-ordered
histogram of declared types. -/
def bumpAssoc (acc : List (String × Nat)) (k : String) : List (String × Nat) :=
  if acc.any (fun p => p.1 == k) then
    acc.map (fun p => if p.1 == k then (p.1, p.2 + 1) else p)
  else acc ++ [(k, 1)]

def countSourceTypesR (sources : List VRecord) : List (String × Nat) :=
  sources.foldl (fun acc s => bumpAssoc acc (jsStrOpt s.sourceType "unknown")) []

/-- The metrics object of calculateSourceMetrics (aiServices.js lines
656-694): the empty-source shape has no credibilityRange,
balancedPerspectives or sourceTypes properties (modelled as none). -/
structure MetricsJson where
  neutralityRange : ScoreRange
  sentimentRange : ScoreRange
  credibilityRange : Option ScoreRange
  diversityScore : ℚ
  scoreVariance : ℚ
  balancedPerspectives : Option Bool
  sourceTypes : Option (List (String × Nat))
deriving DecidableEq

def calculateSourceMetricsR (sources : List VRecord) : MetricsJson :=
  match sources with
  | [] =>
    { neutralityRange := { low := 0, high := 0, average := 0 }
    , sentimentRange := { low := 0, high := 0, average := 0 }
    , credibilityRange := none
    , diversityScore := 0
    , scoreVariance := 0
    , balancedPerspectives := none
    , sourceTypes := none }
  | _ :: _ =>
    let ns := sources.map (fun s => jsOrQv s.neutralityScore)
    let ss := sources.map (fun s => jsOrQv s.sentimentScore)
    let cs := sources.map (fun s => jsOrQv s.credibilityScore)
    { neutralityRange := rangeOf ns
    , sentimentRange := rangeOf ss
    , credibilityRange := some (rangeOf cs)
    , diversityScore := calculateDiversityScoreR sources
    , scoreVariance := calculateScoreVarianceR ns
    , balancedPerspectives := some (checkPerspectiveBalanceR ns)
    , sourceTypes := some (countSourceTypesR sources) }

structure QualityJson where
  qualityScore : ℚ
  factors : List String
  rating : String
deriving DecidableEq

/-- assessResearchQuality (aiServices.js lines 705-764).  The destructuring
defaults credibilityRange to {average: 0.5} and sourceTypes to the empty
object when absent; destructuring defaults (unlike ||) do not fire on 0. -/
def assessResearchQualityR (resp : ReliableResult) (m : MetricsJson) : QualityJson :=
  let credAvg : ℚ := match m.credibilityRange with
    | some r => r.average
    | none => 1/2
  let types := m.sourceTypes.getD []
  let q1 : ℚ × List String :=
    if 7/10 < resp.neutralityScore then (1/5, ["High overall neutrality"])
    else if 1/2 < resp.neutralityScore then (1/10, ["Moderate overall neutrality"])
    else (0, [])
  let q2 : ℚ × List String :=
    if 7/10 < m.diversityScore then (1/5, ["Good source diversity"])
    else if 2/5 < m.diversityScore then (1/10, ["Moderate source diversity"])
    else (0, [])
  let q3 : ℚ × List String :=
    if 3/10 < m.neutralityRange.high - m.neutralityRange.low then
      (3/20, ["Wide perspective range"])
    else (0, [])
  let q4 : ℚ × List String :=
    if 7/10 < credAvg then (1/4, ["High source credibility"])
    else if 1/2 < credAvg then (3/20, ["Moderate source credibility"])
    else (0, [])
  let q5 : ℚ × List String :=
    if 3 ≤ types.length then (1/10, ["Good source type variety"])
    else (0, [])
  let q6 : ℚ × List String :=
    if 3 ≤ resp.sources.length then (1/10, ["Adequate source quantity"])
    else (0, [])
  let qualityScore := q1.1 + q2.1 + q3.1 + q4.1 + q5.1 + q6.1
  { qualityScore := min qualityScore 1
  , factors := q1.2 ++ q2.2 ++ q3.2 ++ q4.2 ++ q5.2 ++ q6.2
  , rating :=
      if 7/10 < qualityScore then "high"
      else if 2/5 < qualityScore then "medium"
      else "low" }

structure QuickJson where
  overallNeutrality : String
  perspectiveBalance : String
  researchQuality : String
  sourceCredibility : String
  keyConsideration : String
deriving DecidableEq

/-- generateQuickAssessment (aiServices.js lines 766-810). -/
def generateQuickAssessmentR (resp : ReliableResult) (m : MetricsJson)
    (q : QualityJson) : QuickJson :=
  let credAvg : ℚ := match m.credibilityRange with
    | some r => r.average
    | none => 1/2
  let bp := m.balancedPerspectives.getD false
  { overallNeutrality :=
      if 7/10 < resp.neutralityScore then "high"
      else if 1/2 < resp.neutralityScore then "moderate"
      else "low"
  , perspectiveBalance := if bp then "balanced" else "skewed"
  , researchQuality := q.rating
  , sourceCredibility :=
      if 7/10 < credAvg then "high"
      else if 1/2 < credAvg then "moderate"
      else "low"
  , keyConsideration :=
      if m.neutralityRange.high - m.neutralityRange.low < 1/5 then
        "Sources show similar neutrality levels - consider seeking contrasting viewpoints"
      else if 7/10 < resp.persuasionScore then
        "High persuasion detected - evaluate argument strength critically"
      else if resp.neutralityScore < 2/5 then
        "Low overall neutrality - verify claims with additional sources"
      else if credAvg < 1/2 then
        "Source credibility is low - consider more authoritative references"
      else
        "Based on actual sources used - continue critical evaluation" }

/-- The normalisation map of the orchestrator (aiServices.js lines 616-622):
tags is always a list here, and each score is defaulted through ||. -/
def normalizeVRecord (s : VRecord) : VRecord :=
  { s with
    neutralityScore := jsOrQv s.neutralityScore
  , sentimentScore := jsOrQv s.sentimentScore
  , credibilityScore := jsOrQv s.credibilityScore }

/-- The caller-facing result: the reliable-result fields plus the enhancement
fields added on the normal path (absent on the orchestrator's catch path). -/
structure ResearchResult where
  summary : String
  neutralityScore : ℚ
  persuasionScore : ℚ
  sources : List VRecord
  usedFallback : Bool
  fallback : Bool
  biasAnalysis : Option BiasJson
  sourceMetrics : Option MetricsJson
  researchQuality : Option QualityJson
  quickAssessment : Option QuickJson
  sourcesValidated : Bool
deriving DecidableEq

/-- The result returned by the orchestrator's catch path: getFallbackResponse
spread with none of the enhancement properties. -/
def plainResearchResult (r : ReliableResult) : ResearchResult :=
  { summary := r.summary
  , neutralityScore := r.neutralityScore
  , persuasionScore := r.persuasionScore
  , sources := r.sources
  , usedFallback := r.usedFallback
  , fallback := r.fallback
  , biasAnalysis := none
  , sourceMetrics := none
  , researchQuality := none
  , quickAssessment := none
  , sourcesValidated := false }

/-- The normal-path body of the orchestrator after the inner call returned
(aiServices.js lines 610-643). -/
def enhanceResponse (env : Env) (aiResponse : ReliableResult) : ResearchResult :=
  let respWS : ReliableResult := { aiResponse with sources := aiResponse.sources.map normalizeVRecord }
  let biasInsights := getBiasAnalysisInsightsR env respWS
  let sourceMetrics := calculateSourceMetricsR respWS.sources
  let researchQuality := assessResearchQualityR respWS sourceMetrics
  { summary := respWS.summary
  , neutralityScore := respWS.neutralityScore
  , persuasionScore := respWS.persuasionScore
  , sources := respWS.sources
  , usedFallback := respWS.usedFallback
  , fallback := respWS.fallback
  , biasAnalysis := some biasInsights
  , sourceMetrics := some sourceMetrics
  , researchQuality := some researchQuality
  , quickAssessment := some (generateQuickAssessmentR respWS sourceMetrics researchQuality)
  , sourcesValidated := true }

/-- getEnhancedSmartResponseWithSources (aiServices.js lines 605-648): the
orchestrator.  The inner `if (!aiResponse) return null` is unreachable
because both branches of getReliableSourcesWithFallback construct an object;
an exception escaping the try is caught and converted to
getFallbackResponse. -/
def getEnhancedSmartResponseWithSourcesR (env : Env) (prompt : String) :
    Except String ResearchResult :=
  tryCatchE
    (match getSmartResponseWithSourcesR env prompt with
     | .error e => .error e
     | .ok aiResponse => .ok (enhanceResponse env aiResponse))
    (fun _ => plainResearchResult (getFallbackResponseR env prompt))

/-! ## Content Fetcher — scrapeWebsite (src/services/scrapper.js lines 13-82)

scrapeWebsite awaits axios.get; the page is parsed with cheerio (an oracle
here: paragraph extraction already filtered to fragments longer than 50
characters and joined).  On a caught error whose response status is 403 the
handler evaluates `retries > 0` — but no variable `retries` is in scope in
this file (the parameter exists only in an older revision), so the handler
itself raises ReferenceError, which escapes scrapeWebsite.  All other errors
return null.  On a successful fetch with sufficient text the function calls
getTagsFromAI / getNeutralityAndSentiment / getDeepDiveSummaries as
destructured from ./aiServices — but the circular require between
aiServices.js and scrapper.js leaves those bindings undefined at destructure
time (and getDeepDiveSummaries is not exported by the current aiServices at
all), so the first such call raises TypeError, which the catch maps (status
is not 403) to null. -/

inductive FetchOutcome where
  | ok (page : String)
  | httpErr (status : Nat) (msg : String)
  | netErr (msg : String)
deriving DecidableEq

structure FetchEnv where
  axiosGet : String → FetchOutcome
  paragraphText : String → String

def referenceErrorRetries : String := "ReferenceError: retries is not defined"

def scrapeWebsiteJs (fenv : FetchEnv) (url : String) : Except String (Option ScrapedData) :=
  match fenv.axiosGet url with
  | .ok page =>
    let bodyText := fenv.paragraphText page
    if bodyText = "" ∨ bodyText.length < 100 then
      -- insufficient text content: return null
      .ok none
    else
      -- the TypeError raised by the undefined AI helper is caught below;
      -- its status is not 403, so the call resolves to null
      .ok none
  | .httpErr status _ =>
    if status = 403 then
      -- catch: error.response.status === 403 is true, and evaluating the
      -- unbound `retries` raises ReferenceError out of scrapeWebsite
      .error referenceErrorRetries
    else
      .ok none
  | .netErr _ => .ok none

/-! ## Concrete environments and candidates used by the closed theorems -/

/-- A benign constant environment: every backend response is absent or
unparseable (so every callAI resolves to its fallback), scraping resolves to
null, URL format validation accepts, and the URL parser oracle yields no
hostname. -/
def envDefault : Env :=
  { initialResp := fun _ => .ok (some "Initial answer.")
  , extractResp := fun _ => .ok (some "[]")
  , parseExtract := fun _ => none
  , analysisResp := fun _ => .ok none
  , parseAnalysis := fun _ => none
  , tagsResp := fun _ => .ok none
  , parseTags := fun _ => none
  , summaryResp := fun _ => .ok (some "A generated summary.")
  , biasResp := fun _ _ => .ok none
  , parseBias := fun _ => none
  , scrape := fun _ => .ok none
  , validUrl := fun _ => true
  , domainOf := fun _ => none }

/-- An environment whose extractor response parses to a truthy non-iterable
sources value: the enrichment loop header then throws TypeError. -/
def envNonIterable : Env :=
  { envDefault with
    parseExtract := fun _ =>
      some { overallNeutrality := none, overallPersuasion := none, sources := .nonIterable } }

/-- An environment in which every probe/fetch fails (the scrape oracle — the
only network channel toward candidate URLs — rejects everything). -/
def envDeadProbe : Env :=
  { envDefault with scrape := fun _ => .error "probe failed: connection refused" }

/-- An environment whose scrape oracle always throws. -/
def envScrapeThrows : Env :=
  { envDefault with scrape := fun _ => .error "boom" }

/-- An environment whose URL parser oracle reports the nasa.gov hostname. -/
def envNasa : Env :=
  { envDefault with domainOf := fun _ => some "nasa.gov" }

/-- A government candidate without a generator-supplied credibilityScore. -/
def candNasa : Candidate :=
  { url := "https://nasa.gov/a"
  , title := some "NASA page"
  , contentSnippet := some "A NASA description"
  , domain := some "nasa.gov"
  , sourceType := some "government"
  , credibilityScore := none
  , confidence := none
  , tags := [] }

/-- A candidate carrying confidence 0.5. -/
def candLowConfidence : Candidate :=
  { url := "https://example.com/low"
  , title := some "Low-confidence source"
  , contentSnippet := none
  , domain := none
  , sourceType := none
  , credibilityScore := none
  , confidence := some (1/2)
  , tags := [] }

/-- A candidate carrying confidence 0.9. -/
def candHighConfidence : Candidate :=
  { url := "https://example.com/high"
  , title := some "High-confidence source"
  , contentSnippet := none
  , domain := none
  , sourceType := none
  , credibilityScore := none
  , confidence := some (9/10)
  , tags := [] }

/-- An environment whose extractor response parses to the two candidates
above. -/
def envTwoCandidates : Env :=
  { envDefault with
    parseExtract := fun _ =>
      some { overallNeutrality := some (1/2), overallPersuasion := some (1/2)
           , sources := .arr [candLowConfidence, candHighConfidence] } }

/-- A fetch environment whose every GET yields HTTP 403. -/
def fenv403 : FetchEnv :=
  { axiosGet := fun _ => .httpErr 403 "Request failed with status code 403"
  , paragraphText := fun _ => "" }

/-- A fetch environment whose every GET yields HTTP 500. -/
def fenv500 : FetchEnv :=
  { axiosGet := fun _ => .httpErr 500 "Request failed with status code 500"
  , paragraphText := fun _ => "" }

/-- An environment whose analysis backend answers non-JSON text and whose
tags and summary backends reject. -/
def envAnalyzerFails : Env :=
  { envDefault with
    analysisResp := fun _ => .ok (some "not json")
  , tagsResp := fun _ => .error "backend down"
  , summaryResp := fun _ => .error "backend down" }

/-- An environment whose summary backend answers a plain-text summary. -/
def envPlainSummary : Env :=
  { envDefault with
    summaryResp := fun _ => .ok (some "A plain text summary, not JSON.") }

/-- An environment whose analysis backend answers parseable JSON carrying an
out-of-range neutrality score (7.3): JSON.parse enforces no range, and the
enricher applies no clamp to parsed analysis values. -/
def envOutOfRange : Env :=
  { envDefault with
    analysisResp := fun _ => .ok (some "[]")
  , parseAnalysis := fun _ =>
      some { neutralityScore := some (73/10), sentimentScore := some (1/2) } }

/-- A candidate carrying an out-of-range generator-supplied credibilityScore
of 5 (nothing in the pipeline validates this property). -/
def candOverCred : Candidate :=
  { url := "https://nasa.gov/b"
  , title := some "NASA page"
  , contentSnippet := some "A NASA description"
  , domain := some "nasa.gov"
  , sourceType := some "government"
  , credibilityScore := some 5
  , confidence := none
  , tags := [] }

/-- The analysis-parse oracle respects the documented score ranges: whenever
it yields a field, the value lies in [0, 1]. -/
def analysisParseBounded (env : Env) : Prop :=
  ∀ t a, env.parseAnalysis t = some a →
    (∀ v, a.neutralityScore = some v → 0 ≤ v ∧ v ≤ 1)
    ∧ (∀ v, a.sentimentScore = some v → 0 ≤ v ∧ v ≤ 1)

/-- Every generator-supplied credibilityScore in the candidate list, when
present, lies in [0, 1]. -/
def candCredBounded (l : List Candidate) : Prop :=
  ∀ s ∈ l, ∀ c, s.credibilityScore = some c → 0 ≤ c ∧ c ≤ 1

/-! # Theorems -/

/-! ## String-matching lemmas -/

theorem lcStartsWith_append (p q l : List Char)
    (h : lcStartsWith (p ++ q) l = true) : lcStartsWith p l = true := by
  induction p generalizing l with
  | nil => rfl
  | cons a ps ih =>
    cases l with
    | nil => simp [lcStartsWith] at h
    | cons c cs =>
      simp only [List.cons_append, lcStartsWith, Bool.and_eq_true] at h ⊢
      exact ⟨h.1, ih cs h.2⟩

theorem lcContains_of_startsWith {pat l : List Char}
    (h : lcStartsWith pat l = true) : lcContains pat l = true := by
  cases l with
  | nil => simpa [lcContains] using h
  | cons c cs => simp [lcContains, h]

theorem lcContains_cons (pat : List Char) (c : Char) (cs : List Char) :
    lcContains pat (c :: cs) = (lcStartsWith pat (c :: cs) || lcContains pat cs) := rfl

theorem lcFbclidOnce_id : ∀ l : List Char,
    lcContains "fbclid".data l = false → lcFbclidOnce l = l := by
  intro l
  induction l with
  | nil => intro _; rfl
  | cons c cs ih =>
    intro h
    rw [lcContains_cons, Bool.or_eq_false_iff] at h
    have hg : lcStartsWith "fbclid=".data cs = false := by
      cases hcs : lcStartsWith "fbclid=".data cs
      · rfl
      · exfalso
        have hpre : lcStartsWith "fbclid".data cs = true := by
          have heq : ("fbclid".data ++ "=".data) = "fbclid=".data := by decide
          exact lcStartsWith_append "fbclid".data "=".data cs (by rw [heq]; exact hcs)
        have hcont := lcContains_of_startsWith hpre
        rw [h.2] at hcont
        exact Bool.false_ne_true hcont
    simp only [lcFbclidOnce, hg, Bool.and_false, Bool.false_eq_true, if_false]
    rw [ih h.2]

theorem lcUtmGo_id : ∀ (n : Nat) (l : List Char),
    lcContains "utm_".data l = false → lcUtmGo n l = l := by
  intro n
  induction n with
  | zero => intro l _; cases l <;> rfl
  | succ n ih =>
    intro l h
    cases l with
    | nil => rfl
    | cons c cs =>
      rw [lcContains_cons, Bool.or_eq_false_iff] at h
      have hg : lcStartsWith "utm_".data cs = false := by
        cases hcs : lcStartsWith "utm_".data cs
        · rfl
        · exfalso
          have hcont := lcContains_of_startsWith hcs
          rw [h.2] at hcont
          exact Bool.false_ne_true hcont
      simp only [lcUtmGo, hg, Bool.and_false, Bool.false_eq_true, if_false]
      rw [ih cs h.2]

theorem lcDropLastIf_id (ch : Char) (l : List Char)
    (h : lcStartsWith [ch] l.reverse = false) : lcDropLastIf ch l = l := by
  unfold lcDropLastIf
  cases hr : l.reverse with
  | nil => rfl
  | cons c rest =>
    rw [hr] at h
    show (if (c == ch) = true then rest.reverse else l) = l
    simp only [lcStartsWith, Bool.and_true] at h
    have hcc : (c == ch) = false := by
      rw [beq_eq_false_iff_ne] at h ⊢
      exact fun he => h he.symm
    simp only [hcc, Bool.false_eq_true, if_false]

theorem cleanUrl_id_of_clean (u : String)
    (h1 : strContains u "fbclid" = false) (h2 : strContains u "utm_" = false)
    (h3 : strEnds u "&" = false) (h4 : strEnds u "?" = false) :
    cleanUrl u = u := by
  unfold cleanUrl lcUtmAll
  rw [lcFbclidOnce_id u.data h1]
  rw [lcUtmGo_id u.data.length u.data h2]
  rw [lcDropLastIf_id '&' u.data h3]
  rw [lcDropLastIf_id '?' u.data h4]

/-! ## C8 — URL canonicalization idempotence -/

/-- C8 (amended): cleanUrl strips the first fbclid parameter, one
left-to-right pass of non-overlapping utm parameters and one trailing
separator per application, so it is NOT idempotent in general; it is the
identity (hence idempotent) on every URL containing no "fbclid" and no
"utm_" occurrence and not ending in an ampersand or question mark, and the
claim's concrete example canonicalizes as stated:
cleanUrl "https://x.com/a?fbclid=123&utm_source=y" = "https://x.com/a". -/
theorem cleanUrl_amended :
    (∀ u : String, strContains u "fbclid" = false → strContains u "utm_" = false →
      strEnds u "&" = false → strEnds u "?" = false →
      cleanUrl u = u ∧ cleanUrl (cleanUrl u) = cleanUrl u)
    ∧ cleanUrl "https://x.com/a?fbclid=123&utm_source=y" = "https://x.com/a" := by
  constructor
  · intro u h1 h2 h3 h4
    have hid := cleanUrl_id_of_clean u h1 h2 h3 h4
    exact ⟨hid, by rw [hid, hid]⟩
  · decide

/-- C8 witness: the amended theorem evaluated on an already-canonical URL. -/
theorem cleanUrl_amended_witness :
    cleanUrl "https://x.com/a" = "https://x.com/a"
    ∧ cleanUrl (cleanUrl "https://x.com/a") = cleanUrl "https://x.com/a" :=
  cleanUrl_amended.1 "https://x.com/a" (by decide) (by decide) (by decide) (by decide)

/-- C8 counterexample: cleanUrl is not idempotent — with two fbclid
parameters the non-global first replace removes only one per application,
so a second application changes the result again. -/
theorem cleanUrl_not_idempotent :
    cleanUrl "https://x.com/a?fbclid=1&fbclid=2" = "https://x.com/a?fbclid=2"
    ∧ cleanUrl (cleanUrl "https://x.com/a?fbclid=1&fbclid=2") = "https://x.com/a"
    ∧ cleanUrl (cleanUrl "https://x.com/a?fbclid=1&fbclid=2")
        ≠ cleanUrl "https://x.com/a?fbclid=1&fbclid=2" := by
  refine ⟨by decide, by decide, by decide⟩

/-! ## C4 — credibility scorer -/

theorem domainScoreOfCode_ge_half (d : Option String) : 1/2 ≤ domainScoreOfCode d := by
  rcases d with _ | d
  · simp [domainScoreOfCode]
  · simp only [domainScoreOfCode]
    split
    · norm_num
    · split
      · norm_num
      · split
        · norm_num
        · split
          · split <;> norm_num
          · norm_num

theorem calculateCredibilityScore_decomposition (d t : Option String) :
    calculateCredibilityScore d t
      = max (1/10) (min 1 (max (domainScoreOfCode d) (typeScoreOfCode t))) := by
  have hbase := domainScoreOfCode_ge_half d
  rcases t with _ | t
  · simp only [calculateCredibilityScore, typeScoreOfCode]
    rw [max_eq_left hbase]
  · simp only [calculateCredibilityScore, typeScoreOfCode]
    rcases h : typeScoresLookup t with _ | v
    · simp only [h, Option.getD_none]
      rw [max_eq_left hbase]
    · simp only [h, Option.getD_some]

theorem calculateCredibilityScore_bounds (d t : Option String) :
    1/10 ≤ calculateCredibilityScore d t ∧ calculateCredibilityScore d t ≤ 1 := by
  constructor
  · exact le_max_left _ _
  · simp only [calculateCredibilityScore]
    exact max_le (by norm_num) (min_le_left _ _)

/-- C4 (amended): the credibility scorer is a pure function of
(domain, sourceType); the domain score is assigned by substring containment
tested in order (.edu 0.9, else .gov 0.85, else .org 0.7, else .com 0.6 or
0.8 when an allowlisted news name occurs in the domain), the declared-type
table is as claimed, and the result is the maximum of the two scores clamped
to [0.1, 1]; in particular score(nasa.gov, government) = 0.85 and
score(randomblog.com, general) lies in [0.5, 0.6]. -/
theorem credibilityScorer_amended :
    (∀ d t : Option String,
      calculateCredibilityScore d t
        = max (1/10) (min 1 (max (domainScoreOfCode d) (typeScoreOfCode t))))
    ∧ calculateCredibilityScore (some "nasa.gov") (some "government") = 17/20
    ∧ 1/2 ≤ calculateCredibilityScore (some "randomblog.com") (some "general")
    ∧ calculateCredibilityScore (some "randomblog.com") (some "general") ≤ 3/5 := by
  have hnasa : calculateCredibilityScore (some "nasa.gov") (some "government") = 17/20 := by
    show max (1/10 : ℚ) (min 1 (max (17/20) (17/20))) = 17/20
    rw [max_self, min_eq_right (by norm_num : (17:ℚ)/20 ≤ 1),
      max_eq_right (by norm_num : (1:ℚ)/10 ≤ 17/20)]
  have hblog : calculateCredibilityScore (some "randomblog.com") (some "general") = 3/5 := by
    show max (1/10 : ℚ) (min 1 (max (3/5) (1/2))) = 3/5
    rw [max_eq_left (by norm_num : (1:ℚ)/2 ≤ 3/5),
      min_eq_right (by norm_num : (3:ℚ)/5 ≤ 1),
      max_eq_right (by norm_num : (1:ℚ)/10 ≤ 3/5)]
  refine ⟨calculateCredibilityScore_decomposition, hnasa, ?_, ?_⟩
  · rw [hblog]; norm_num
  · rw [hblog]

/-- C4 witness: the amended decomposition evaluated at concrete inputs. -/
theorem credibilityScorer_amended_witness :
    calculateCredibilityScore (some "who.int") (some "news")
      = max (1/10) (min 1 (max (domainScoreOfCode (some "who.int"))
          (typeScoreOfCode (some "news")))) :=
  credibilityScorer_amended.1 (some "who.int") (some "news")

/-- C4 counterexample: the claim reads the domain table as a suffix table,
but the code tests substring containment — "a.education.com" has suffix
.com (score 0.6 under the claim with type general) yet the code scores it
0.9 because it contains ".edu". -/
theorem credibilityScorer_suffix_counterexample :
    calculateCredibilityScore (some "a.education.com") (some "general") = 9/10
    ∧ max (1/10 : ℚ) (min 1 (max (specDomainSuffixScore "a.education.com")
        (typeScoreOfCode (some "general")))) = 3/5
    ∧ (9/10 : ℚ) ≠ 3/5 := by
  refine ⟨?_, ?_, by norm_num⟩
  · show max (1/10 : ℚ) (min 1 (max (9/10) (1/2))) = 9/10
    rw [max_eq_left (by norm_num : (1:ℚ)/2 ≤ 9/10),
      min_eq_right (by norm_num : (9:ℚ)/10 ≤ 1),
      max_eq_right (by norm_num : (1:ℚ)/10 ≤ 9/10)]
  · show max (1/10 : ℚ) (min 1 (max (3/5) (1/2))) = 3/5
    rw [max_eq_left (by norm_num : (1:ℚ)/2 ≤ 3/5),
      min_eq_right (by norm_num : (3:ℚ)/5 ≤ 1),
      max_eq_right (by norm_num : (1:ℚ)/10 ≤ 3/5)]

/-! ## callAI lemmas -/

theorem callAI_of_fallsBack {α : Type} (parse : String → Option α) (o : AICallOutcome)
    (fb : α) (h : callAIFallsBack parse o = true) : callAI parse o fb = fb := by
  rcases o with e | w
  · rfl
  · rcases w with _ | t
    · rfl
    · simp only [callAI, callAIFallsBack] at h ⊢
      by_cases h1 : 100000 < t.length
      · rw [if_pos h1]
      · rw [if_neg h1] at h ⊢
        by_cases h2 : jsonDelimited (jsTrimS t) = true
        · rw [if_pos h2] at h ⊢
          rw [Option.isNone_iff_eq_none] at h
          rw [h]
          rfl
        · rw [if_neg h2]

theorem callAI_parse_none {α : Type} (parse : String → Option α) (o : AICallOutcome)
    (fb : α) (hm : ∀ t, parse t = none) : callAI parse o fb = fb := by
  rcases o with e | w
  · rfl
  · rcases w with _ | t
    · rfl
    · simp only [callAI]
      by_cases h1 : 100000 < t.length
      · rw [if_pos h1]
      · rw [if_neg h1]
        by_cases h2 : jsonDelimited (jsTrimS t) = true
        · rw [if_pos h2, hm t]
          rfl
        · rw [if_neg h2]

/-! ## C5 — content-analyzer totality and defaults -/

/-- C5 (amended): the neutrality/sentiment and tags calls are total and
resolve every defensive-check failure (missing response, oversized payload,
non-JSON-delimited text, parse failure) and every backend rejection to their
fixed defaults {0.5, 0.5} and []; the summary call is also total and never
raises, but applies no JSON or size checks: it returns any non-empty backend
text verbatim and falls back to the 200-character truncation of the input
exactly when the response text is missing or empty or the call rejects. -/
theorem contentAnalyzer_amended :
    ∀ (env : Env) (text : String),
      (callAIFallsBack env.parseAnalysis (env.analysisResp (analysisPromptOf text)) = true →
        getNeutralityAndSentimentR env text
          = { neutralityScore := some (1/2), sentimentScore := some (1/2) })
      ∧ (callAIFallsBack env.parseTags (env.tagsResp (tagsPromptOf text)) = true →
        getTagsFromAIR env text = .arr [])
      ∧ (∀ e, env.summaryResp (summaryPromptOf text) = .error e →
        getGenSummaryR env text = jsSubstring text 0 200 ++ "...")
      ∧ (env.summaryResp (summaryPromptOf text) = .ok none →
        getGenSummaryR env text = jsSubstring text 0 200 ++ "...")
      ∧ (∀ s, env.summaryResp (summaryPromptOf text) = .ok (some s) →
        (s = "" → getGenSummaryR env text = jsSubstring text 0 200 ++ "...")
        ∧ (s ≠ "" → getGenSummaryR env text = s)) := by
  intro env text
  refine ⟨?_, ?_, ?_, ?_, ?_⟩
  · intro h
    exact callAI_of_fallsBack env.parseAnalysis _ _ h
  · intro h
    exact callAI_of_fallsBack env.parseTags _ _ h
  · intro e h
    unfold getGenSummaryR
    rw [h]
  · intro h
    unfold getGenSummaryR
    rw [h]
  · intro s h
    constructor
    · intro hs
      unfold getGenSummaryR
      rw [h]
      show (if s = "" then jsSubstring text 0 200 ++ "..." else s) = jsSubstring text 0 200 ++ "..."
      rw [if_pos hs]
    · intro hs
      unfold getGenSummaryR
      rw [h]
      show (if s = "" then jsSubstring text 0 200 ++ "..." else s) = s
      rw [if_neg hs]

/-- C5 witness: the amended theorem at a concrete environment in which the
analysis backend answers non-JSON text and the tags and summary backends
reject. -/
theorem contentAnalyzer_amended_witness :
    getNeutralityAndSentimentR envAnalyzerFails "t"
      = { neutralityScore := some (1/2), sentimentScore := some (1/2) }
    ∧ getTagsFromAIR envAnalyzerFails "t" = .arr []
    ∧ getGenSummaryR envAnalyzerFails "t" = jsSubstring "t" 0 200 ++ "..." := by
  have h := contentAnalyzer_amended envAnalyzerFails "t"
  exact ⟨h.1 (by decide), h.2.1 rfl, h.2.2.1 "backend down" rfl⟩

/-- C5 counterexample: the claim requires a non-JSON-delimited backend
response to resolve to the summary call's deterministic default, but
getGenSummary returns the plain (non-JSON, unchecked) backend text
verbatim. -/
theorem summaryCall_counterexample :
    jsonDelimited (jsTrimS "A plain text summary, not JSON.") = false
    ∧ getGenSummaryR envPlainSummary "The input text to summarize."
        = "A plain text summary, not JSON."
    ∧ "A plain text summary, not JSON."
        ≠ jsSubstring "The input text to summarize." 0 200 ++ "..." := by
  refine ⟨by decide, rfl, by decide⟩

/-! ## C7 — content fetcher 403 retry -/

/-- C7 (code bug): on an HTTP 403 the fetch is attempted once and then the
catch handler itself raises ReferenceError, because the retry branch reads
the unbound variable retries — no retry and no reported failure happen, so
a 403 propagates an exception to the caller; a non-403 failure is terminal
and reported as null, as the claim says. -/
theorem fetcher403_referenceError :
    scrapeWebsiteJs fenv403 "https://example.com/" = .error referenceErrorRetries
    ∧ scrapeWebsiteJs fenv500 "https://example.com/" = .ok none :=
  ⟨rfl, rfl⟩

/-! ## C3 — extractor survival -/

/-- C3 (amended): a candidate returned by the Source Candidate Extractor
survives into validation/enrichment exactly when its URL — the cleaned form
when truthy, the original otherwise — is non-empty; no confidence threshold
exists, and survival is invariant under replacing the candidate's confidence
value. -/
theorem extractor_survival_amended :
    ∀ (r : ExtractJson) (l : List Candidate), r.sources = .arr l →
      (postProcessExtract r).sources
        = .arr ((l.map transformCandidate).filter keepCandidate)
      ∧ (∀ s : Candidate, keepCandidate (transformCandidate s)
          = !(jsOrStr (cleanUrl s.url) s.url == ""))
      ∧ (∀ (s : Candidate) (c : Option ℚ),
          keepCandidate (transformCandidate { s with confidence := c })
            = keepCandidate (transformCandidate s)) := by
  intro r l h
  refine ⟨?_, fun s => rfl, fun s c => rfl⟩
  rcases r with ⟨n, p, src⟩
  cases h
  rfl

/-- C3 witness: the amended survival characterization at a concrete
extractor result. -/
theorem extractor_survival_amended_witness :
    (postProcessExtract
        { overallNeutrality := some (1/2), overallPersuasion := some (1/2)
        , sources := .arr [candLowConfidence] }).sources
      = .arr (([candLowConfidence].map transformCandidate).filter keepCandidate) :=
  (extractor_survival_amended
    { overallNeutrality := some (1/2), overallPersuasion := some (1/2)
    , sources := .arr [candLowConfidence] } [candLowConfidence] rfl).1

/-- C3 counterexample: a candidate with confidence 0.5 and a valid URL
passes the Extractor's post-processing unfiltered (no 0.7 threshold is
applied anywhere), refuting the claim that it does not proceed. -/
theorem extractor_no_threshold_counterexample :
    (getActualSourcesUsedR envTwoCandidates "prompt").sources
      = .arr [transformCandidate candLowConfidence, transformCandidate candHighConfidence]
    ∧ (transformCandidate candLowConfidence).confidence = some (1/2)
    ∧ ¬ (7/10 ≤ (1/2 : ℚ)) := by
  refine ⟨rfl, rfl, by norm_num⟩

/-! ## C2 — enricher degraded path -/

theorem calcCredScore_nasa :
    calculateCredibilityScore (some "nasa.gov") (some "government") = 17/20 := by
  show max (1/10 : ℚ) (min 1 (max (17/20) (17/20))) = 17/20
  rw [max_self, min_eq_right (by norm_num : (17:ℚ)/20 ≤ 1),
    max_eq_right (by norm_num : (1:ℚ)/10 ≤ 17/20)]

/-- C2 (amended): a candidate whose cleaned URL is falsy or fails format
validation produces no output record; a candidate whose URL is valid but
whose scrape yields null or empty text is still emitted with
verified = false, its text taken from the generator-supplied description,
and its credibility score equal to the candidate's own generator-supplied
credibilityScore (0.5 when absent or zero) reduced by 0.3 and floored at
0.2 — not the Credibility Scorer's output. -/
theorem enricher_degraded_amended :
    ∀ (env : Env) (source : Candidate),
      ((cleanUrl source.url = "" ∨ env.validUrl (cleanUrl source.url) = false) →
        processCandidate env source = none)
      ∧ (∀ d : Option ScrapedData,
          cleanUrl source.url ≠ "" →
          env.validUrl (cleanUrl source.url) = true →
          env.scrape (cleanUrl source.url) = .ok d →
          (d = none ∨ ∃ sd, d = some sd ∧ sd.text = "") →
          processCandidate env source
            = some (scrapeFailRecord env source (cleanUrl source.url))
          ∧ (scrapeFailRecord env source (cleanUrl source.url)).verified = false
          ∧ (scrapeFailRecord env source (cleanUrl source.url)).text
              = some (jsStrOpt source.contentSnippet "Content not available through scraping")
          ∧ (scrapeFailRecord env source (cleanUrl source.url)).credibilityScore
              = max (1/5) (jsOrHalf source.credibilityScore - 3/10)) := by
  intro env source
  constructor
  · intro h
    by_cases hc : cleanUrl source.url = ""
    · simp only [processCandidate, hc, if_pos]
    · rcases h with h | h
      · exact absurd h hc
      · simp only [processCandidate, if_neg hc, h, if_pos]
  · intro d hne hval hscrape hfail
    refine ⟨?_, rfl, rfl, rfl⟩
    simp only [processCandidate, if_neg hne]
    rw [if_neg (by simp [hval]), hscrape]
    rcases hfail with rfl | ⟨sd, rfl, hsd⟩
    · rfl
    · show (if sd.text = "" then some (scrapeFailRecord env source (cleanUrl source.url))
        else some (scrapeSuccessRecord env source (cleanUrl source.url) sd)) = _
      rw [if_pos hsd]

/-- C2 witness: the amended theorem at a concrete environment — a rejecting
URL validator drops the candidate, and a null scrape emits the degraded
record. -/
theorem enricher_degraded_amended_witness :
    processCandidate { envDefault with validUrl := fun _ => false } candNasa = none
    ∧ processCandidate envDefault candNasa
        = some (scrapeFailRecord envDefault candNasa (cleanUrl candNasa.url))
    ∧ (scrapeFailRecord envDefault candNasa (cleanUrl candNasa.url)).verified = false := by
  have h1 := (enricher_degraded_amended { envDefault with validUrl := fun _ => false }
    candNasa).1 (Or.inr rfl)
  have h2 := (enricher_degraded_amended envDefault candNasa).2 none
    (by decide) rfl rfl (Or.inl rfl)
  exact ⟨h1, h2.1, h2.2.1⟩

/-- C2 counterexample: for a government candidate with a valid nasa.gov URL
and no generator-supplied credibilityScore whose scrape fails, the emitted
credibility is 0.2 (= max(0.2, 0.5 − 0.3)), whereas the claim — the
Credibility Scorer's output for the candidate reduced by 0.3 and floored at
0.2 — demands max(0.2, 0.85 − 0.3) = 0.55. -/
theorem enricher_penalty_counterexample :
    processCandidate envNasa candNasa
      = some (scrapeFailRecord envNasa candNasa "https://nasa.gov/a")
    ∧ (scrapeFailRecord envNasa candNasa "https://nasa.gov/a").credibilityScore = 1/5
    ∧ max (1/5 : ℚ) (calculateCredibilityScore (some "nasa.gov") (some "government") - 3/10)
        = 11/20
    ∧ (1/5 : ℚ) ≠ 11/20 := by
  refine ⟨rfl, ?_, ?_, by norm_num⟩
  · show max (1/5 : ℚ) (jsOrHalf none - 3/10) = 1/5
    rw [show jsOrHalf none = 1/2 from rfl,
      show (1/2 : ℚ) - 3/10 = 1/5 by norm_num, max_self]
  · rw [calcCredScore_nasa, show (17/20 : ℚ) - 3/10 = 11/20 by norm_num,
      max_eq_right (by norm_num : (1:ℚ)/5 ≤ 11/20)]

/-! ## C10 — per-candidate catch keeps the loop going -/

/-- C10 (confirmed): when a URL-valid candidate's scrape throws, the
per-candidate catch emits the candidate with tags [], scores 0.5/0.5,
credibility 0.2 and verified = false, and the loop continues with the
remaining candidates. -/
theorem enricher_catch_continues :
    ∀ (env : Env) (source : Candidate) (rest : List Candidate) (e : String),
      cleanUrl source.url ≠ "" →
      env.validUrl (cleanUrl source.url) = true →
      env.scrape (cleanUrl source.url) = .error e →
      enrichLoop env (source :: rest) = catchRecord source e :: enrichLoop env rest
      ∧ (catchRecord source e).tags = []
      ∧ (catchRecord source e).neutralityScore = 1/2
      ∧ (catchRecord source e).sentimentScore = 1/2
      ∧ (catchRecord source e).credibilityScore = 1/5
      ∧ (catchRecord source e).verified = false := by
  intro env source rest e h1 h2 h3
  refine ⟨?_, rfl, rfl, rfl, rfl, rfl⟩
  have hp : processCandidate env source = some (catchRecord source e) := by
    simp only [processCandidate, if_neg h1]
    rw [if_neg (by simp [h2]), h3]
  simp only [enrichLoop, hp]

/-- C10 witness: the catch record and the continuing loop at a concrete
throwing environment. -/
theorem enricher_catch_continues_witness :
    enrichLoop envScrapeThrows [candNasa]
      = catchRecord candNasa "boom" :: enrichLoop envScrapeThrows []
    ∧ (catchRecord candNasa "boom").credibilityScore = 1/5
    ∧ (catchRecord candNasa "boom").verified = false := by
  have h := enricher_catch_continues envScrapeThrows candNasa [] "boom" (by decide) rfl rfl
  exact ⟨h.1, h.2.2.2.2.1, h.2.2.2.2.2⟩

/-! ## C9 — score invariants of every emitted record -/

theorem jsOrHalf_some_half : jsOrHalf (some ((1:ℚ)/2)) = 1/2 := by
  show (if ((1:ℚ)/2 = 0) then (1/2 : ℚ) else 1/2) = 1/2
  rw [ite_self]

theorem jsOrHalf_bounds (x : Option ℚ)
    (h : ∀ v, x = some v → 0 ≤ v ∧ v ≤ 1) :
    0 ≤ jsOrHalf x ∧ jsOrHalf x ≤ 1 := by
  rcases x with _ | v
  · constructor <;> norm_num [jsOrHalf]
  · simp only [jsOrHalf]
    by_cases hv : v = 0
    · rw [if_pos hv]
      constructor <;> norm_num
    · rw [if_neg hv]
      exact h v rfl

/-- A callAI result is either the fallback or a successfully parsed value. -/
theorem callAI_cases {α : Type} (parse : String → Option α) (o : AICallOutcome) (fb : α) :
    callAI parse o fb = fb ∨ ∃ s a, parse s = some a ∧ callAI parse o fb = a := by
  rcases o with e | w
  · left; rfl
  · rcases w with _ | t
    · left; rfl
    · simp only [callAI]
      by_cases h1 : 100000 < t.length
      · left; rw [if_pos h1]
      · rw [if_neg h1]
        by_cases h2 : jsonDelimited (jsTrimS t) = true
        · rw [if_pos h2]
          cases hp : parse t with
          | none => left; rfl
          | some a =>
            right
            exact ⟨t, a, hp, rfl⟩
        · left; rw [if_neg h2]

/-- The neutrality/sentiment call resolves either to its fixed {0.5, 0.5}
fallback or to a successfully parsed object. -/
theorem analysisOut_cases (env : Env) (t : String) :
    getNeutralityAndSentimentR env t
        = { neutralityScore := some (1/2), sentimentScore := some (1/2) }
    ∨ ∃ s a, env.parseAnalysis s = some a ∧ getNeutralityAndSentimentR env t = a :=
  callAI_cases env.parseAnalysis (env.analysisResp (analysisPromptOf t)) _

theorem analysisCall_bounds (env : Env) (hb : analysisParseBounded env) (t : String) :
    (0 ≤ jsOrHalf (getNeutralityAndSentimentR env t).neutralityScore
      ∧ jsOrHalf (getNeutralityAndSentimentR env t).neutralityScore ≤ 1)
    ∧ (0 ≤ jsOrHalf (getNeutralityAndSentimentR env t).sentimentScore
      ∧ jsOrHalf (getNeutralityAndSentimentR env t).sentimentScore ≤ 1) := by
  rcases analysisOut_cases env t with h | ⟨s, a, hp, h⟩
  · rw [h]
    have hh : jsOrHalf (some ((1:ℚ)/2)) = 1/2 := jsOrHalf_some_half
    constructor <;> constructor
    · show (0:ℚ) ≤ jsOrHalf (some (1/2))
      rw [hh]; norm_num
    · show jsOrHalf (some ((1:ℚ)/2)) ≤ 1
      rw [hh]; norm_num
    · show (0:ℚ) ≤ jsOrHalf (some (1/2))
      rw [hh]; norm_num
    · show jsOrHalf (some ((1:ℚ)/2)) ≤ 1
      rw [hh]; norm_num
  · rw [h]
    exact ⟨jsOrHalf_bounds _ (hb s a hp).1, jsOrHalf_bounds _ (hb s a hp).2⟩

theorem scrapeFail_cred_bounds (env : Env) (source : Candidate) (cleaned : String)
    (hc : ∀ c, source.credibilityScore = some c → 0 ≤ c ∧ c ≤ 1) :
    1/10 ≤ (scrapeFailRecord env source cleaned).credibilityScore
    ∧ (scrapeFailRecord env source cleaned).credibilityScore ≤ 1 := by
  have hj := jsOrHalf_bounds source.credibilityScore hc
  constructor
  · show (1/10 : ℚ) ≤ max (1/5) (jsOrHalf source.credibilityScore - 3/10)
    calc (1/10 : ℚ) ≤ 1/5 := by norm_num
    _ ≤ _ := le_max_left _ _
  · show max (1/5 : ℚ) (jsOrHalf source.credibilityScore - 3/10) ≤ 1
    apply max_le (by norm_num)
    linarith [hj.2]

theorem processCandidate_bounds (env : Env) (hb : analysisParseBounded env)
    (s : Candidate) (hc : ∀ c, s.credibilityScore = some c → 0 ≤ c ∧ c ≤ 1) :
    ∀ r, processCandidate env s = some r →
      (1/10 ≤ r.credibilityScore ∧ r.credibilityScore ≤ 1)
      ∧ (0 ≤ r.neutralityScore ∧ r.neutralityScore ≤ 1)
      ∧ (0 ≤ r.sentimentScore ∧ r.sentimentScore ≤ 1) := by
  intro r hr
  simp only [processCandidate] at hr
  by_cases h1 : cleanUrl s.url = ""
  · rw [if_pos h1] at hr
    exact Option.noConfusion hr
  · rw [if_neg h1] at hr
    by_cases h2 : env.validUrl (cleanUrl s.url) = false
    · rw [if_pos h2] at hr
      exact Option.noConfusion hr
    · rw [if_neg h2] at hr
      cases hs : env.scrape (cleanUrl s.url) with
      | error e =>
        rw [hs] at hr
        have hr2 : some (catchRecord s e) = some r := hr
        injection hr2 with h
        subst h
        refine ⟨⟨?_, ?_⟩, ⟨?_, ?_⟩, ?_, ?_⟩ <;> norm_num [catchRecord]
      | ok od =>
        rw [hs] at hr
        cases od with
        | none =>
          have hr2 : some (scrapeFailRecord env s (cleanUrl s.url)) = some r := hr
          injection hr2 with h
          subst h
          exact ⟨scrapeFail_cred_bounds env s _ hc,
            (analysisCall_bounds env hb (contentToAnalyze s)).1,
            (analysisCall_bounds env hb (contentToAnalyze s)).2⟩
        | some d =>
          have hr1 : (if d.text = "" then some (scrapeFailRecord env s (cleanUrl s.url))
              else some (scrapeSuccessRecord env s (cleanUrl s.url) d)) = some r := hr
          by_cases hd : d.text = ""
          · rw [if_pos hd] at hr1
            injection hr1 with h
            subst h
            exact ⟨scrapeFail_cred_bounds env s _ hc,
              (analysisCall_bounds env hb (contentToAnalyze s)).1,
              (analysisCall_bounds env hb (contentToAnalyze s)).2⟩
          · rw [if_neg hd] at hr1
            injection hr1 with h
            subst h
            exact ⟨calculateCredibilityScore_bounds _ _,
              (analysisCall_bounds env hb (jsSubstring d.text 0 3000)).1,
              (analysisCall_bounds env hb (jsSubstring d.text 0 3000)).2⟩

theorem processCandidate_default_half (env : Env)
    (hm : ∀ t, env.parseAnalysis t = none) (s : Candidate) (r : VRecord)
    (hr : processCandidate env s = some r) :
    r.neutralityScore = 1/2 ∧ r.sentimentScore = 1/2 := by
  have hcall : ∀ t, getNeutralityAndSentimentR env t
      = { neutralityScore := some (1/2), sentimentScore := some (1/2) } := by
    intro t
    exact callAI_parse_none env.parseAnalysis _ _ hm
  simp only [processCandidate] at hr
  by_cases h1 : cleanUrl s.url = ""
  · rw [if_pos h1] at hr
    exact Option.noConfusion hr
  · rw [if_neg h1] at hr
    by_cases h2 : env.validUrl (cleanUrl s.url) = false
    · rw [if_pos h2] at hr
      exact Option.noConfusion hr
    · rw [if_neg h2] at hr
      cases hs : env.scrape (cleanUrl s.url) with
      | error e =>
        rw [hs] at hr
        have hr2 : some (catchRecord s e) = some r := hr
        injection hr2 with h
        subst h
        exact ⟨rfl, rfl⟩
      | ok od =>
        rw [hs] at hr
        cases od with
        | none =>
          have hr2 : some (scrapeFailRecord env s (cleanUrl s.url)) = some r := hr
          injection hr2 with h
          subst h
          constructor
          · show jsOrHalf (getNeutralityAndSentimentR env (contentToAnalyze s)).neutralityScore = 1/2
            rw [hcall]
            exact jsOrHalf_some_half
          · show jsOrHalf (getNeutralityAndSentimentR env (contentToAnalyze s)).sentimentScore = 1/2
            rw [hcall]
            exact jsOrHalf_some_half
        | some d =>
          have hr1 : (if d.text = "" then some (scrapeFailRecord env s (cleanUrl s.url))
              else some (scrapeSuccessRecord env s (cleanUrl s.url) d)) = some r := hr
          by_cases hd : d.text = ""
          · rw [if_pos hd] at hr1
            injection hr1 with h
            subst h
            constructor
            · show jsOrHalf (getNeutralityAndSentimentR env (contentToAnalyze s)).neutralityScore = 1/2
              rw [hcall]
              exact jsOrHalf_some_half
            · show jsOrHalf (getNeutralityAndSentimentR env (contentToAnalyze s)).sentimentScore = 1/2
              rw [hcall]
              exact jsOrHalf_some_half
          · rw [if_neg hd] at hr1
            injection hr1 with h
            subst h
            constructor
            · show jsOrHalf
                (getNeutralityAndSentimentR env (jsSubstring d.text 0 3000)).neutralityScore = 1/2
              rw [hcall]
              exact jsOrHalf_some_half
            · show jsOrHalf
                (getNeutralityAndSentimentR env (jsSubstring d.text 0 3000)).sentimentScore = 1/2
              rw [hcall]
              exact jsOrHalf_some_half

/-- C9 (amended): every record the enricher emits — on the success,
degraded and per-candidate-catch paths alike — has credibilityScore in
[0.1, 1] and neutrality/sentiment scores in [0, 1], PROVIDED the parsed
analysis scores and the generator-supplied candidate credibility respect
their documented [0, 1] ranges (the code applies no clamp of its own to
these untrusted inputs — see the counterexample below); and whenever the
analysis measurement is absent (the parse oracle never yields an object),
both scores are exactly 0.5. -/
theorem enricher_score_invariants :
    ∀ (env : Env) (l : List Candidate),
      analysisParseBounded env →
      candCredBounded l →
      (∀ r ∈ enrichLoop env l,
        (1/10 ≤ r.credibilityScore ∧ r.credibilityScore ≤ 1)
        ∧ (0 ≤ r.neutralityScore ∧ r.neutralityScore ≤ 1)
        ∧ (0 ≤ r.sentimentScore ∧ r.sentimentScore ≤ 1))
      ∧ ((∀ t, env.parseAnalysis t = none) →
        ∀ r ∈ enrichLoop env l, r.neutralityScore = 1/2 ∧ r.sentimentScore = 1/2) := by
  intro env l hb
  induction l with
  | nil =>
    intro _
    constructor
    · intro r hr
      simp [enrichLoop] at hr
    · intro _ r hr
      simp [enrichLoop] at hr
  | cons s rest ih =>
    intro hcred
    have hc_s : ∀ c, s.credibilityScore = some c → 0 ≤ c ∧ c ≤ 1 :=
      hcred s (List.mem_cons_self s rest)
    have hc_rest : candCredBounded rest := by
      intro x hx c hxc
      exact hcred x (List.mem_cons_of_mem s hx) c hxc
    obtain ⟨ih1, ih2⟩ := ih hc_rest
    constructor
    · intro r hr
      simp only [enrichLoop] at hr
      cases hps : processCandidate env s with
      | none =>
        rw [hps] at hr
        exact ih1 r hr
      | some r0 =>
        rw [hps] at hr
        have hr2 : r ∈ r0 :: enrichLoop env rest := hr
        rcases List.mem_cons.mp hr2 with rfl | hmem
        · exact processCandidate_bounds env hb s hc_s r hps
        · exact ih1 r hmem
    · intro hm r hr
      simp only [enrichLoop] at hr
      cases hps : processCandidate env s with
      | none =>
        rw [hps] at hr
        exact ih2 hm r hr
      | some r0 =>
        rw [hps] at hr
        have hr2 : r ∈ r0 :: enrichLoop env rest := hr
        rcases List.mem_cons.mp hr2 with rfl | hmem
        · exact processCandidate_default_half env hm s r hps
        · exact ih2 hm r hmem

/-- C9 witness: the invariants evaluated on a concrete environment and
candidate — the degraded record of candNasa has credibility at least 0.1
and defaulted 0.5 neutrality. -/
theorem enricher_score_invariants_witness :
    1/10 ≤ (scrapeFailRecord envDefault candNasa (cleanUrl candNasa.url)).credibilityScore
    ∧ (scrapeFailRecord envDefault candNasa (cleanUrl candNasa.url)).neutralityScore = 1/2 := by
  have h := enricher_score_invariants envDefault [candNasa]
    (by intro t a ha; exact Option.noConfusion ha)
    (by
      intro x hx c hxc
      rcases List.mem_singleton.mp hx with rfl
      exact Option.noConfusion hxc)
  have heq : enrichLoop envDefault [candNasa]
      = [scrapeFailRecord envDefault candNasa (cleanUrl candNasa.url)] := rfl
  have hmem : scrapeFailRecord envDefault candNasa (cleanUrl candNasa.url)
      ∈ enrichLoop envDefault [candNasa] := by
    rw [heq]
    exact List.mem_singleton.mpr rfl
  exact ⟨(h.1 _ hmem).1.1, (h.2 (fun t => rfl) _ hmem).1⟩

/-- C9 counterexample: the claimed invariant is not unconditional — the code
never clamps the parsed analysis scores or the candidate's own
credibilityScore.  With a backend whose parsed analysis carries
neutralityScore 7.3 and a candidate carrying credibilityScore 5, the
degraded-path record the enricher emits has neutralityScore 7.3 (outside
[0, 1]) and credibilityScore max(0.2, 5 − 0.3) = 4.7 (outside [0.1, 1]). -/
theorem enricher_score_invariants_counterexample :
    enrichLoop envOutOfRange [candOverCred]
      = [scrapeFailRecord envOutOfRange candOverCred "https://nasa.gov/b"]
    ∧ (scrapeFailRecord envOutOfRange candOverCred "https://nasa.gov/b").neutralityScore
        = 73/10
    ∧ ¬ ((scrapeFailRecord envOutOfRange candOverCred "https://nasa.gov/b").neutralityScore ≤ 1)
    ∧ (scrapeFailRecord envOutOfRange candOverCred "https://nasa.gov/b").credibilityScore
        = 47/10
    ∧ ¬ ((scrapeFailRecord envOutOfRange candOverCred "https://nasa.gov/b").credibilityScore ≤ 1) := by
  have hn : (scrapeFailRecord envOutOfRange candOverCred "https://nasa.gov/b").neutralityScore
      = 73/10 := by
    show jsOrHalf (some ((73:ℚ)/10)) = 73/10
    show (if ((73:ℚ)/10 = 0) then (1/2 : ℚ) else 73/10) = 73/10
    rw [if_neg (by norm_num : ¬ ((73:ℚ)/10 = 0))]
  have hc : (scrapeFailRecord envOutOfRange candOverCred "https://nasa.gov/b").credibilityScore
      = 47/10 := by
    show max (1/5 : ℚ) (jsOrHalf (some 5) - 3/10) = 47/10
    rw [show jsOrHalf (some (5:ℚ)) = 5 by
        show (if (5:ℚ) = 0 then (1/2 : ℚ) else 5) = 5
        rw [if_neg (by norm_num : ¬ ((5:ℚ) = 0))],
      show (5:ℚ) - 3/10 = 47/10 by norm_num,
      max_eq_right (by norm_num : (1:ℚ)/5 ≤ 47/10)]
  refine ⟨rfl, hn, ?_, hc, ?_⟩
  · rw [hn]
    norm_num
  · rw [hc]
    norm_num

/-! ## C1 — the orchestrator never propagates an exception -/

theorem tryCatchE_ok {ε α : Type} (body : Except ε α) (handler : ε → α) :
    ∃ a, tryCatchE body handler = .ok a := by
  cases body with
  | ok a => exact ⟨a, rfl⟩
  | error e => exact ⟨handler e, rfl⟩

/-- C1 (confirmed): for every environment behaviour the orchestrator
resolves to a result, never to an exception; and when the pipeline body does
raise (in this model: the enrichment stage rejects a non-iterable sources
value), the caught exception is converted into a terminal fallback result
carrying a summary, neutral 0.5/0.5 scores, an empty source list and the
fallback flag set to true.  The conversion happens at the
getReliableSourcesWithFallback catch; the orchestrator's own catch is a
second line of defence around the enhancement stage. -/
theorem orchestrator_never_throws :
    ∀ (env : Env) (prompt : String),
      (∃ r, getEnhancedSmartResponseWithSourcesR env prompt = .ok r)
      ∧ (∀ e, validateAndEnrichSourcesWithScraping env
            (getActualSourcesUsedR env prompt).sources = .error e →
          ∃ r, getEnhancedSmartResponseWithSourcesR env prompt = .ok r
            ∧ r.summary = getGenSummaryR env prompt
            ∧ r.neutralityScore = 1/2
            ∧ r.persuasionScore = 1/2
            ∧ r.sources = []
            ∧ r.fallback = true) := by
  intro env prompt
  constructor
  · exact tryCatchE_ok _ _
  · intro e he
    have hrel : getReliableSourcesWithFallbackR env prompt
        = .ok (getFallbackResponseR env prompt) := by
      simp only [getReliableSourcesWithFallbackR]
      rw [he]
      rfl
    refine ⟨enhanceResponse env (getFallbackResponseR env prompt), ?_, rfl, rfl, rfl, rfl, rfl⟩
    simp only [getEnhancedSmartResponseWithSourcesR, getSmartResponseWithSourcesR]
    rw [hrel]
    rfl

/-- C1 witness: in the environment whose extractor result carries a
non-iterable sources value the enrichment stage raises, and the orchestrator
still returns a fallback-shaped result. -/
theorem orchestrator_never_throws_witness :
    ∃ r, getEnhancedSmartResponseWithSourcesR envNonIterable "p" = .ok r
      ∧ r.sources = [] ∧ r.fallback = true := by
  obtain ⟨r, hok, _, _, _, hsrc, hfb⟩ :=
    (orchestrator_never_throws envNonIterable "p").2
      "TypeError: sources is not iterable" rfl
  exact ⟨r, hok, hsrc, hfb⟩

/-! ## C6 — predefined fallback sources -/

theorem generatePredefinedSourcesR_ne_nil (env : Env) (prompt : String) :
    generatePredefinedSourcesR env prompt ≠ [] := by
  simp only [generatePredefinedSourcesR, domainsFor]
  split
  · simp [reliableDomainsHealth]
  · split
    · simp [reliableDomainsNutrition]
    · simp [reliableDomainsGeneral]

theorem generatePredefinedSourcesR_fields (env : Env) (prompt : String) :
    ∀ s ∈ generatePredefinedSourcesR env prompt,
      s.verified = true ∧ s.credibilityScore = 4/5 ∧ s.predefined = true := by
  intro s hs
  unfold generatePredefinedSourcesR at hs
  rw [List.mem_map] at hs
  obtain ⟨d, _, rfl⟩ := hs
  exact ⟨rfl, rfl, rfl⟩

/-- C6 (amended): whenever the enricher yields zero validated sources the
pipeline returns its fallback flag (the usedFallback property) true and a
non-empty source list drawn from the curated keyword buckets, each record
tagged verified = true with credibilityScore = 0.8 — without any
re-validation of those URLs through the prober/fetcher. -/
theorem predefinedFallback_amended :
    ∀ (env : Env) (prompt : String),
      validateAndEnrichSourcesWithScraping env
          (getActualSourcesUsedR env prompt).sources = .ok [] →
      getReliableSourcesWithFallbackR env prompt
        = .ok { summary := getInitialAIResponseR env prompt
              , neutralityScore := 1/2
              , persuasionScore := 1/2
              , sources := generatePredefinedSourcesR env prompt
              , usedFallback := true
              , fallback := false }
      ∧ generatePredefinedSourcesR env prompt ≠ []
      ∧ (∀ s ∈ generatePredefinedSourcesR env prompt,
          s.verified = true ∧ s.credibilityScore = 4/5 ∧ s.predefined = true) := by
  intro env prompt h
  refine ⟨?_, generatePredefinedSourcesR_ne_nil env prompt,
    generatePredefinedSourcesR_fields env prompt⟩
  simp only [getReliableSourcesWithFallbackR]
  rw [h]
  rfl

/-- C6 witness: the amended theorem at the benign environment, whose
extractor yields no candidates. -/
theorem predefinedFallback_amended_witness :
    getReliableSourcesWithFallbackR envDefault "hello"
      = .ok { summary := getInitialAIResponseR envDefault "hello"
            , neutralityScore := 1/2
            , persuasionScore := 1/2
            , sources := generatePredefinedSourcesR envDefault "hello"
            , usedFallback := true
            , fallback := false }
    ∧ generatePredefinedSourcesR envDefault "hello" ≠ [] := by
  have h := predefinedFallback_amended envDefault "hello" rfl
  exact ⟨h.1, h.2.1⟩

/-- C6 counterexample: with an environment in which every probe/fetch of a
URL fails, the fallback sources are still emitted, non-empty, with
verified = true — so they cannot have been re-validated through the
Liveness Prober before inclusion, refuting that clause of the claim. -/
theorem predefinedFallback_no_revalidation :
    ∃ r, getReliableSourcesWithFallbackR envDeadProbe "hello" = .ok r
      ∧ r.usedFallback = true
      ∧ r.sources ≠ []
      ∧ (∀ s ∈ r.sources, s.verified = true
          ∧ envDeadProbe.scrape s.url = .error "probe failed: connection refused") := by
  refine ⟨_, rfl, rfl, ?_, ?_⟩
  · show generatePredefinedSourcesR envDeadProbe "hello" ≠ []
    exact generatePredefinedSourcesR_ne_nil envDeadProbe "hello"
  · intro s hs
    have hs2 : s ∈ generatePredefinedSourcesR envDeadProbe "hello" := hs
    exact ⟨(generatePredefinedSourcesR_fields envDeadProbe "hello" s hs2).1, rfl⟩

end Thnk
